import Mathlib

/-!
Verification of the Hunt_Project client-side mapping application.

The development shallowly embeds the React components of the repository:

* `App` (src/unnamed/part_000): top-level state — basemap style and the
  layer-visibility flags passed to the sidebar and the map.
* `MapComponent` (src/unnamed/part_001): map-local state (measurement mode,
  popup, selected trail, style-loaded flag), the click handler, the
  basemap-style toggle, the interactive-layer-id list and the rendered
  source/layer tree.
* `Sidebar` (src/frontend/src/components/Sidebar.tsx): the fixed list of
  layer toggles and the NAIP year options.

Event handlers become a `step` function over an `Action` type; JSX
conditional rendering becomes functions computing the list of rendered
sources and their sublayers.  External library calls (turf's length) are
abstracted as function parameters; numeric coordinates are rationals.
-/

namespace HuntProject

/-- Measurement unit: the two-valued type of `measurementUnit`
(`'miles' | 'yards'`, part_001 line 317). -/
inductive MUnit where
  | miles
  | yards
deriving DecidableEq, Repr

/-- A longitude/latitude pair, as stored in `measurementPoints`. -/
structure LngLat where
  lng : ℚ
  lat : ℚ
deriving DecidableEq, Repr

/-- A clicked map feature: the id of the layer it was hit on and its
property table (`feature.layer.id`, `feature.properties`). -/
structure Feature where
  layerId : String
  properties : List (String × String)
deriving DecidableEq, Repr

/-- The suitability metadata fetched from `habitat_suitability.json`:
bounds and image url (part_001 line 313). -/
structure SuitMeta where
  bounds : List (List ℚ)
  url : String
deriving DecidableEq, Repr

/-- The popup state: the clicked feature and the click coordinates
(part_001 line 311). -/
structure PopupInfo where
  feature : Feature
  lngLat : LngLat
deriving DecidableEq, Repr

/-- The eleven layer-visibility flags of `App` (src/unnamed/part_000,
lines 11–22). -/
structure LayerFlags where
  showLocalDistricts : Bool
  showNHD : Bool
  showMTRoads : Bool
  showTrails : Bool
  showPublicLands : Bool
  showNAIP : Bool
  showBHS : Bool
  showElevationBands : Bool
  showSlopeMask : Bool
  showParcels : Bool
  showHabitatSuitability : Bool
deriving DecidableEq, Repr

/-- Names for the eleven visibility flags, used to index sidebar toggles
and flag updates. -/
inductive FlagName where
  | localDistricts
  | nhd
  | mtRoads
  | trails
  | publicLands
  | naip
  | bhs
  | elevationBands
  | slopeMask
  | parcels
  | habitatSuitability
deriving DecidableEq, Repr, Fintype

/-- Read one visibility flag. -/
def LayerFlags.get (f : LayerFlags) : FlagName → Bool
  | .localDistricts => f.showLocalDistricts
  | .nhd => f.showNHD
  | .mtRoads => f.showMTRoads
  | .trails => f.showTrails
  | .publicLands => f.showPublicLands
  | .naip => f.showNAIP
  | .bhs => f.showBHS
  | .elevationBands => f.showElevationBands
  | .slopeMask => f.showSlopeMask
  | .parcels => f.showParcels
  | .habitatSuitability => f.showHabitatSuitability

/-- Set one visibility flag (the sidebar checkbox `onChange` handlers). -/
def LayerFlags.set (f : LayerFlags) : FlagName → Bool → LayerFlags
  | .localDistricts, b => { f with showLocalDistricts := b }
  | .nhd, b => { f with showNHD := b }
  | .mtRoads, b => { f with showMTRoads := b }
  | .trails, b => { f with showTrails := b }
  | .publicLands, b => { f with showPublicLands := b }
  | .naip, b => { f with showNAIP := b }
  | .bhs, b => { f with showBHS := b }
  | .elevationBands, b => { f with showElevationBands := b }
  | .slopeMask, b => { f with showSlopeMask := b }
  | .parcels, b => { f with showParcels := b }
  | .habitatSuitability, b => { f with showHabitatSuitability := b }

/-- `STYLE_TERRAIN` (src/unnamed/part_000 line 6). -/
def STYLE_TERRAIN : String := "mapbox://styles/mapbox/outdoors-v12"

/-- `STYLE_SATELLITE` (src/unnamed/part_000 line 7). -/
def STYLE_SATELLITE : String := "mapbox://styles/cjlinville/cmljzr1ps004l01sp15xj9941"

/-- The combined state of `App` and `MapComponent`: basemap style and
layer flags (part_000 lines 10–22) together with the map-local state
(part_001 lines 310–324). -/
structure AppState where
  mapStyle : String
  flags : LayerFlags
  naipYear : String
  isSidebarOpen : Bool
  cursorCoords : Option LngLat
  popupInfo : Option PopupInfo
  suitabilityMeta : Option SuitMeta
  selectedTrailName : Option String
  isMeasuring : Bool
  measurementPoints : List LngLat
  measurementUnit : MUnit
  isStyleLoaded : Bool
deriving DecidableEq, Repr

/-- The initial state: `useState` defaults of `App`
(part_000 lines 10–25) and `MapComponent` (part_001 lines 310–318). -/
def initAppState : AppState :=
  { mapStyle := STYLE_TERRAIN
    flags :=
      { showLocalDistricts := true
        showNHD := true
        showMTRoads := true
        showTrails := true
        showPublicLands := true
        showNAIP := false
        showBHS := false
        showElevationBands := false
        showSlopeMask := false
        showParcels := false
        showHabitatSuitability := false }
    naipYear := "2023"
    isSidebarOpen := false
    cursorCoords := none
    popupInfo := none
    suitabilityMeta := none
    selectedTrailName := none
    isMeasuring := false
    measurementPoints := []
    measurementUnit := .miles
    isStyleLoaded := false }

/-! ## Measurement -/

/-- `totalDistance` (part_001 lines 326–330): 0 for fewer than two
points, otherwise the turf length of the line through the points in the
selected unit.  The external `turf.length` call is abstracted as the
parameter `turfLength`. -/
def totalDistance (turfLength : List LngLat → MUnit → ℚ)
    (pts : List LngLat) (u : MUnit) : ℚ :=
  if pts.length < 2 then 0 else turfLength pts u

/-- The decimal count passed to `toFixed` in the distance display
(part_001 line 695): 2 for miles, 0 for yards. -/
def distanceDecimals (u : MUnit) : Nat :=
  if u = .miles then 2 else 0

/-- The unit label shown next to the distance (part_001 line 696). -/
def unitLabel (u : MUnit) : String :=
  if u = .miles then "mi" else "yd"

/-- The distance display (part_001 lines 686–698): rendered only when
`measurementPoints.length > 0`; shows the total distance with
`distanceDecimals` decimal places and the unit label. -/
def distanceDisplay (turfLength : List LngLat → MUnit → ℚ)
    (s : AppState) : Option (ℚ × Nat × String) :=
  if s.measurementPoints.length > 0 then
    some (totalDistance turfLength s.measurementPoints s.measurementUnit,
          distanceDecimals s.measurementUnit,
          unitLabel s.measurementUnit)
  else none

/-- The unit toggle on the distance display (part_001 line 689):
`prev === 'miles' ? 'yards' : 'miles'`. -/
def toggleUnit : MUnit → MUnit
  | .miles => .yards
  | .yards => .miles

/-! ## Basemap toggle -/

/-- `toggleMapStyle`'s new style (part_001 line 374):
`mapStyle === STYLE_TERRAIN ? STYLE_SATELLITE : STYLE_TERRAIN`. -/
def toggleStyle (style : String) : String :=
  if style = STYLE_TERRAIN then STYLE_SATELLITE else STYLE_TERRAIN

/-! ## Click handling -/

/-- A map click event: the interactive features under the click (in hit
order) and the click coordinates. -/
structure ClickEvent where
  features : List Feature
  lngLat : LngLat
deriving DecidableEq, Repr

/-- JavaScript `x || null` applied to an optional string property value:
a missing or empty (falsy) value becomes `none`
(`feature.properties.Name || null`, part_001 line 415). -/
def falsyToNull : Option String → Option String
  | some v => if v = "" then none else some v
  | none => none

/-- The `onClick` handler (part_001 lines 398–421).  While measuring it
appends the click point and returns; otherwise it opens the popup on the
first feature (setting the selected trail name on the trails hit layer)
or clears popup and trail selection when no feature was hit. -/
def onClick (s : AppState) (ev : ClickEvent) : AppState :=
  if s.isMeasuring then
    { s with measurementPoints := s.measurementPoints ++ [ev.lngLat] }
  else
    match ev.features.head? with
    | some f =>
        let s1 := { s with popupInfo := some ⟨f, ev.lngLat⟩ }
        if f.layerId = "fs-trails-hit" then
          { s1 with selectedTrailName := falsyToNull (f.properties.lookup "Name") }
        else s1
    | none => { s with popupInfo := none, selectedTrailName := none }

/-- The table rows of the feature popup (part_001 lines 661–666): one
row per property entry, key then stringified value. -/
def popupRows (p : PopupInfo) : List (String × String) :=
  p.feature.properties

/-! ## Interactive layers and rendering -/

/-- `interactiveLayerIds` (part_001 lines 377–393): the clickable layer
ids, one per enabled layer, two for NHD, built in source order. -/
def interactiveLayerIds (f : LayerFlags) : List String :=
  (if f.showElevationBands then ["elevation-bands"] else []) ++
  (if f.showSlopeMask then ["slope-mask"] else []) ++
  (if f.showPublicLands then ["public-lands"] else []) ++
  (if f.showParcels then ["parcels-labels"] else []) ++
  (if f.showBHS then ["bhs-distribution"] else []) ++
  (if f.showMTRoads then ["mt-roads-hit"] else []) ++
  (if f.showNHD then ["nhd-waterbody-fill", "nhd-flowline-hit"] else []) ++
  (if f.showTrails then ["fs-trails-hit"] else []) ++
  (if f.showLocalDistricts then ["hunting-district-hit"] else []) ++
  (if f.showHabitatSuitability then ["habitat-suitability"] else [])

/-- A rendered `Source` element: its id and the ids of its sublayers. -/
structure RenderedSource where
  sourceId : String
  layerIds : List String
deriving DecidableEq, Repr

/-- The conditional source/layer tree inside the `Map` element
(part_001 lines 475–633), in source order.  Nothing renders until the
style has loaded; the measurement source needs at least one point; the
habitat-suitability source additionally needs its fetched metadata; the
trails source carries a halo sublayer only while a trail is selected. -/
def renderedSources (s : AppState) : List RenderedSource :=
  if s.isStyleLoaded then
    (if s.measurementPoints.length > 0 then
      [⟨"measurement", ["measurement-line", "measurement-points"]⟩] else []) ++
    (if s.flags.showNAIP then
      [⟨"naip-" ++ s.naipYear, ["naip-layer-" ++ s.naipYear]⟩] else []) ++
    (if s.flags.showElevationBands then
      [⟨"elevation-bands", ["elevation-bands"]⟩] else []) ++
    (if s.flags.showSlopeMask then
      [⟨"slope-mask", ["slope-mask"]⟩] else []) ++
    (if s.flags.showHabitatSuitability then
      match s.suitabilityMeta with
      | some _ => [⟨"habitat-suitability", ["habitat-suitability"]⟩]
      | none => []
     else []) ++
    (if s.flags.showPublicLands then
      [⟨"public-lands", ["public-lands"]⟩] else []) ++
    (if s.flags.showParcels then
      [⟨"parcels", ["parcels", "parcels-labels"]⟩] else []) ++
    (if s.flags.showBHS then
      [⟨"bhs-distribution", ["bhs-distribution"]⟩] else []) ++
    (if s.flags.showMTRoads then
      [⟨"mt-roads", ["mt-roads", "mt-roads-label", "mt-roads-hit"]⟩] else []) ++
    (if s.flags.showNHD then
      [⟨"nhd-waterbodies", ["nhd-waterbody-fill", "nhd-waterbody-outline"]⟩,
       ⟨"nhd-flowlines", ["nhd-flowline", "nhd-flowline-label", "nhd-flowline-hit"]⟩]
     else []) ++
    (if s.flags.showTrails then
      [⟨"fs-trails",
        (match s.selectedTrailName with
         | some _ => ["fs-trails-halo"]
         | none => []) ++ ["fs-trails", "fs-trails-label", "fs-trails-hit"]⟩]
     else []) ++
    (if s.flags.showLocalDistricts then
      [⟨"hunting-district",
        ["hunting-district-line", "hunting-district-label", "hunting-district-hit"]⟩]
     else [])
  else []

/-- Whether a source with the given id is rendered in state `s`. -/
def sourceRendered (s : AppState) (id : String) : Prop :=
  id ∈ (renderedSources s).map RenderedSource.sourceId

instance (s : AppState) (id : String) : Decidable (sourceRendered s id) :=
  inferInstanceAs (Decidable (id ∈ _))

/-! ## Sidebar configuration -/

/-- The sidebar layer toggles (Sidebar.tsx lines 143–278): label and the
flag each controls, in source order. -/
def sidebarToggles : List (String × FlagName) :=
  [("Hunting Districts", .localDistricts),
   ("Public Lands", .publicLands),
   ("MT Parcels", .parcels),
   ("MT Highway/Roads", .mtRoads),
   ("Forest Service Trails", .trails),
   ("NHD Hydrography", .nhd),
   ("Bighorn Sheep Distribution", .bhs),
   ("Elevation Bands", .elevationBands),
   ("Steep Slope (>45°)", .slopeMask),
   ("Habitat Suitability Index", .habitatSuitability),
   ("NAIP Imagery", .naip)]

/-- The NAIP year options of the sidebar select (Sidebar.tsx line 272). -/
def naipYearOptions : List String :=
  ["2023", "2021", "2019", "2017", "2015", "2013", "2011", "2009", "2005"]

/-- The ids of the map sources governed by each visibility flag (NHD
has two sources; the NAIP source id carries the selected year). -/
def flagSourceIds (s : AppState) : FlagName → List String
  | .localDistricts => ["hunting-district"]
  | .nhd => ["nhd-waterbodies", "nhd-flowlines"]
  | .mtRoads => ["mt-roads"]
  | .trails => ["fs-trails"]
  | .publicLands => ["public-lands"]
  | .naip => ["naip-" ++ s.naipYear]
  | .bhs => ["bhs-distribution"]
  | .elevationBands => ["elevation-bands"]
  | .slopeMask => ["slope-mask"]
  | .parcels => ["parcels"]
  | .habitatSuitability => ["habitat-suitability"]

/-- The clickable layer ids each visibility flag contributes to
`interactiveLayerIds` (two for NHD, none for NAIP, only the labels id
for parcels). -/
def flagInteractiveIds : FlagName → List String
  | .localDistricts => ["hunting-district-hit"]
  | .nhd => ["nhd-waterbody-fill", "nhd-flowline-hit"]
  | .mtRoads => ["mt-roads-hit"]
  | .trails => ["fs-trails-hit"]
  | .publicLands => ["public-lands"]
  | .naip => []
  | .bhs => ["bhs-distribution"]
  | .elevationBands => ["elevation-bands"]
  | .slopeMask => ["slope-mask"]
  | .parcels => ["parcels-labels"]
  | .habitatSuitability => ["habitat-suitability"]

/-- A state with the habitat-suitability flag on and the style loaded
but the suitability metadata not yet fetched. -/
def habitatNoMetaState : AppState :=
  { initAppState with
      isStyleLoaded := true
      flags := { initAppState.flags with showHabitatSuitability := true } }

/-! ## The transition system -/

/-- One user or system event handled by the application: every handler
of `App`, `MapComponent` and `Sidebar` that updates `AppState`. -/
inductive Action where
  /-- A map click (`onClick`, part_001 lines 398–421). -/
  | mapClick (ev : ClickEvent)
  /-- Mouse move over the map (part_001 line 431). -/
  | mouseMove (c : LngLat)
  /-- The Measure button (part_001 lines 713–717). -/
  | toggleMeasure
  /-- The trash button on the distance display (part_001 lines 700–709). -/
  | clearMeasurements
  /-- A click on the distance display body (part_001 line 689). -/
  | toggleMeasureUnit
  /-- Popup `onClose` or its X button (part_001 lines 641 and 652). -/
  | closePopup
  /-- The basemap toggle button (`toggleMapStyle`, part_001 lines 371–375). -/
  | toggleBasemap
  /-- A sidebar layer checkbox (Sidebar.tsx `onChange` handlers). -/
  | setFlag (name : FlagName) (value : Bool)
  /-- The NAIP year select (Sidebar.tsx line 269). -/
  | setNaipYear (year : String)
  /-- Opening/closing the mobile sidebar (part_000 lines 33, 39, 48). -/
  | setSidebarOpen (b : Bool)
  /-- Map `onLoad` / settled `onStyleData` timer (part_001 lines 437, 461). -/
  | styleLoaded
  /-- Arrival of the fetched suitability metadata (part_001 line 367). -/
  | suitabilityMetaLoaded (m : SuitMeta)
deriving DecidableEq, Repr

/-- The transition function: the effect of each handler on `AppState`. -/
def step (s : AppState) : Action → AppState
  | .mapClick ev => onClick s ev
  | .mouseMove c => { s with cursorCoords := some c }
  | .toggleMeasure =>
      -- setIsMeasuring(!isMeasuring); if (!isMeasuring) setPopupInfo(null)
      if s.isMeasuring then
        { s with isMeasuring := false }
      else
        { s with isMeasuring := true, popupInfo := none }
  | .clearMeasurements => { s with measurementPoints := [] }
  | .toggleMeasureUnit =>
      { s with measurementUnit := toggleUnit s.measurementUnit }
  | .closePopup => { s with popupInfo := none }
  | .toggleBasemap =>
      { s with isStyleLoaded := false, mapStyle := toggleStyle s.mapStyle }
  | .setFlag name value => { s with flags := s.flags.set name value }
  | .setNaipYear year => { s with naipYear := year }
  | .setSidebarOpen b => { s with isSidebarOpen := b }
  | .styleLoaded => { s with isStyleLoaded := true }
  | .suitabilityMetaLoaded m => { s with suitabilityMeta := some m }

/-- The invariant relating measurement mode and the popup: while
measuring, no popup is open. -/
def popupInvariant (s : AppState) : Prop :=
  s.isMeasuring = true → s.popupInfo = none

/-! ## Helper lemmas -/

lemma onClick_measuring (s : AppState) (ev : ClickEvent)
    (h : s.isMeasuring = true) :
    onClick s ev = { s with measurementPoints := s.measurementPoints ++ [ev.lngLat] } := by
  simp [onClick, h]

lemma onClick_isMeasuring (s : AppState) (ev : ClickEvent) :
    (onClick s ev).isMeasuring = s.isMeasuring := by
  cases h : s.isMeasuring with
  | true => simp [onClick, h]
  | false =>
      simp only [onClick, h, Bool.false_eq_true, if_false]
      cases ev.features.head? with
      | none => rfl
      | some f =>
          by_cases hl : f.layerId = "fs-trails-hit" <;> simp [hl]

lemma onClick_points_of_not_measuring (s : AppState) (ev : ClickEvent)
    (h : s.isMeasuring = false) :
    (onClick s ev).measurementPoints = s.measurementPoints := by
  simp only [onClick, h, Bool.false_eq_true, if_false]
  cases ev.features.head? with
  | none => rfl
  | some f =>
      by_cases hl : f.layerId = "fs-trails-hit" <;> simp [hl]

lemma mem_ite_nil {α : Type} (a : α) (c : Prop) [Decidable c] (l : List α) :
    (a ∈ if c then l else []) ↔ c ∧ a ∈ l := by
  split <;> rename_i h <;> simp [h]

lemma naip_id_ne (y t : String) (h : t.data.take 2 ≠ ['n', 'a']) :
    "naip-" ++ y ≠ t := by
  intro he
  apply h
  rw [← he]
  rfl

lemma naip_id_inj (y z : String) : "naip-" ++ y = "naip-" ++ z ↔ y = z := by
  constructor
  · intro h
    have h2 := congrArg String.data h
    simp only [show ("naip-" ++ y).data = 'n' :: 'a' :: 'i' :: 'p' :: '-' :: y.data from rfl,
               show ("naip-" ++ z).data = 'n' :: 'a' :: 'i' :: 'p' :: '-' :: z.data from rfl,
               List.cons.injEq, true_and] at h2
    cases y
    cases z
    exact congrArg String.mk (by simpa using h2)
  · intro h
    rw [h]

lemma rendered_hunting_district_iff (s : AppState) :
    sourceRendered s "hunting-district" ↔
      s.isStyleLoaded = true ∧ s.flags.showLocalDistricts = true := by
  have hnaip := Ne.symm (naip_id_ne s.naipYear "hunting-district" (by decide))
  cases hS : s.isStyleLoaded with
  | false => simp [sourceRendered, renderedSources, hS]
  | true =>
      cases hM : s.suitabilityMeta <;>
        simp [sourceRendered, renderedSources, hS, hM, mem_ite_nil, hnaip,
              apply_ite (List.map RenderedSource.sourceId)]

lemma rendered_public_lands_iff (s : AppState) :
    sourceRendered s "public-lands" ↔
      s.isStyleLoaded = true ∧ s.flags.showPublicLands = true := by
  have hnaip := Ne.symm (naip_id_ne s.naipYear "public-lands" (by decide))
  cases hS : s.isStyleLoaded with
  | false => simp [sourceRendered, renderedSources, hS]
  | true =>
      cases hM : s.suitabilityMeta <;>
        simp [sourceRendered, renderedSources, hS, hM, mem_ite_nil, hnaip,
              apply_ite (List.map RenderedSource.sourceId)]

lemma rendered_parcels_iff (s : AppState) :
    sourceRendered s "parcels" ↔
      s.isStyleLoaded = true ∧ s.flags.showParcels = true := by
  have hnaip := Ne.symm (naip_id_ne s.naipYear "parcels" (by decide))
  cases hS : s.isStyleLoaded with
  | false => simp [sourceRendered, renderedSources, hS]
  | true =>
      cases hM : s.suitabilityMeta <;>
        simp [sourceRendered, renderedSources, hS, hM, mem_ite_nil, hnaip,
              apply_ite (List.map RenderedSource.sourceId)]

lemma rendered_mt_roads_iff (s : AppState) :
    sourceRendered s "mt-roads" ↔
      s.isStyleLoaded = true ∧ s.flags.showMTRoads = true := by
  have hnaip := Ne.symm (naip_id_ne s.naipYear "mt-roads" (by decide))
  cases hS : s.isStyleLoaded with
  | false => simp [sourceRendered, renderedSources, hS]
  | true =>
      cases hM : s.suitabilityMeta <;>
        simp [sourceRendered, renderedSources, hS, hM, mem_ite_nil, hnaip,
              apply_ite (List.map RenderedSource.sourceId)]

lemma rendered_fs_trails_iff (s : AppState) :
    sourceRendered s "fs-trails" ↔
      s.isStyleLoaded = true ∧ s.flags.showTrails = true := by
  have hnaip := Ne.symm (naip_id_ne s.naipYear "fs-trails" (by decide))
  cases hS : s.isStyleLoaded with
  | false => simp [sourceRendered, renderedSources, hS]
  | true =>
      cases hM : s.suitabilityMeta <;>
        simp [sourceRendered, renderedSources, hS, hM, mem_ite_nil, hnaip,
              apply_ite (List.map RenderedSource.sourceId)]

lemma rendered_nhd_waterbodies_iff (s : AppState) :
    sourceRendered s "nhd-waterbodies" ↔
      s.isStyleLoaded = true ∧ s.flags.showNHD = true := by
  have hnaip := Ne.symm (naip_id_ne s.naipYear "nhd-waterbodies" (by decide))
  cases hS : s.isStyleLoaded with
  | false => simp [sourceRendered, renderedSources, hS]
  | true =>
      cases hM : s.suitabilityMeta <;>
        simp [sourceRendered, renderedSources, hS, hM, mem_ite_nil, hnaip,
              apply_ite (List.map RenderedSource.sourceId)]

lemma rendered_nhd_flowlines_iff (s : AppState) :
    sourceRendered s "nhd-flowlines" ↔
      s.isStyleLoaded = true ∧ s.flags.showNHD = true := by
  have hnaip := Ne.symm (naip_id_ne s.naipYear "nhd-flowlines" (by decide))
  cases hS : s.isStyleLoaded with
  | false => simp [sourceRendered, renderedSources, hS]
  | true =>
      cases hM : s.suitabilityMeta <;>
        simp [sourceRendered, renderedSources, hS, hM, mem_ite_nil, hnaip,
              apply_ite (List.map RenderedSource.sourceId)]

lemma rendered_bhs_iff (s : AppState) :
    sourceRendered s "bhs-distribution" ↔
      s.isStyleLoaded = true ∧ s.flags.showBHS = true := by
  have hnaip := Ne.symm (naip_id_ne s.naipYear "bhs-distribution" (by decide))
  cases hS : s.isStyleLoaded with
  | false => simp [sourceRendered, renderedSources, hS]
  | true =>
      cases hM : s.suitabilityMeta <;>
        simp [sourceRendered, renderedSources, hS, hM, mem_ite_nil, hnaip,
              apply_ite (List.map RenderedSource.sourceId)]

lemma rendered_elevation_bands_iff (s : AppState) :
    sourceRendered s "elevation-bands" ↔
      s.isStyleLoaded = true ∧ s.flags.showElevationBands = true := by
  have hnaip := Ne.symm (naip_id_ne s.naipYear "elevation-bands" (by decide))
  cases hS : s.isStyleLoaded with
  | false => simp [sourceRendered, renderedSources, hS]
  | true =>
      cases hM : s.suitabilityMeta <;>
        simp [sourceRendered, renderedSources, hS, hM, mem_ite_nil, hnaip,
              apply_ite (List.map RenderedSource.sourceId)]

lemma rendered_slope_mask_iff (s : AppState) :
    sourceRendered s "slope-mask" ↔
      s.isStyleLoaded = true ∧ s.flags.showSlopeMask = true := by
  have hnaip := Ne.symm (naip_id_ne s.naipYear "slope-mask" (by decide))
  cases hS : s.isStyleLoaded with
  | false => simp [sourceRendered, renderedSources, hS]
  | true =>
      cases hM : s.suitabilityMeta <;>
        simp [sourceRendered, renderedSources, hS, hM, mem_ite_nil, hnaip,
              apply_ite (List.map RenderedSource.sourceId)]

lemma rendered_naip_iff (s : AppState) (y : String) :
    sourceRendered s ("naip-" ++ y) ↔
      s.isStyleLoaded = true ∧ s.flags.showNAIP = true ∧ y = s.naipYear := by
  have h1 := naip_id_ne y "measurement" (by decide)
  have h2 := naip_id_ne y "elevation-bands" (by decide)
  have h3 := naip_id_ne y "slope-mask" (by decide)
  have h4 := naip_id_ne y "habitat-suitability" (by decide)
  have h5 := naip_id_ne y "public-lands" (by decide)
  have h6 := naip_id_ne y "parcels" (by decide)
  have h7 := naip_id_ne y "bhs-distribution" (by decide)
  have h8 := naip_id_ne y "mt-roads" (by decide)
  have h9 := naip_id_ne y "nhd-waterbodies" (by decide)
  have h10 := naip_id_ne y "nhd-flowlines" (by decide)
  have h11 := naip_id_ne y "fs-trails" (by decide)
  have h12 := naip_id_ne y "hunting-district" (by decide)
  cases hS : s.isStyleLoaded with
  | false => simp [sourceRendered, renderedSources, hS]
  | true =>
      cases hM : s.suitabilityMeta <;>
        simp [sourceRendered, renderedSources, hS, hM, mem_ite_nil, naip_id_inj,
              h1, h2, h3, h4, h5, h6, h7, h8, h9, h10, h11, h12,
              apply_ite (List.map RenderedSource.sourceId)]

lemma rendered_habitat_suitability_iff (s : AppState) :
    sourceRendered s "habitat-suitability" ↔
      s.isStyleLoaded = true ∧ s.flags.showHabitatSuitability = true ∧
        s.suitabilityMeta.isSome = true := by
  have hnaip := Ne.symm (naip_id_ne s.naipYear "habitat-suitability" (by decide))
  cases hS : s.isStyleLoaded with
  | false => simp [sourceRendered, renderedSources, hS]
  | true =>
      cases hM : s.suitabilityMeta <;>
        simp [sourceRendered, renderedSources, hS, hM, mem_ite_nil, hnaip,
              apply_ite (List.map RenderedSource.sourceId)]

lemma interactive_elevation_bands_iff (f : LayerFlags) :
    "elevation-bands" ∈ interactiveLayerIds f ↔ f.showElevationBands = true := by
  simp [interactiveLayerIds, mem_ite_nil]

lemma interactive_slope_mask_iff (f : LayerFlags) :
    "slope-mask" ∈ interactiveLayerIds f ↔ f.showSlopeMask = true := by
  simp [interactiveLayerIds, mem_ite_nil]

lemma interactive_public_lands_iff (f : LayerFlags) :
    "public-lands" ∈ interactiveLayerIds f ↔ f.showPublicLands = true := by
  simp [interactiveLayerIds, mem_ite_nil]

lemma interactive_parcels_labels_iff (f : LayerFlags) :
    "parcels-labels" ∈ interactiveLayerIds f ↔ f.showParcels = true := by
  simp [interactiveLayerIds, mem_ite_nil]

lemma interactive_parcels_fill_not_mem (f : LayerFlags) :
    "parcels" ∉ interactiveLayerIds f := by
  simp [interactiveLayerIds, mem_ite_nil]

lemma interactive_bhs_iff (f : LayerFlags) :
    "bhs-distribution" ∈ interactiveLayerIds f ↔ f.showBHS = true := by
  simp [interactiveLayerIds, mem_ite_nil]

lemma interactive_mt_roads_iff (f : LayerFlags) :
    "mt-roads-hit" ∈ interactiveLayerIds f ↔ f.showMTRoads = true := by
  simp [interactiveLayerIds, mem_ite_nil]

lemma interactive_nhd_waterbody_iff (f : LayerFlags) :
    "nhd-waterbody-fill" ∈ interactiveLayerIds f ↔ f.showNHD = true := by
  simp [interactiveLayerIds, mem_ite_nil]

lemma interactive_nhd_flowline_iff (f : LayerFlags) :
    "nhd-flowline-hit" ∈ interactiveLayerIds f ↔ f.showNHD = true := by
  simp [interactiveLayerIds, mem_ite_nil]

lemma interactive_fs_trails_iff (f : LayerFlags) :
    "fs-trails-hit" ∈ interactiveLayerIds f ↔ f.showTrails = true := by
  simp [interactiveLayerIds, mem_ite_nil]

lemma interactive_hunting_district_iff (f : LayerFlags) :
    "hunting-district-hit" ∈ interactiveLayerIds f ↔ f.showLocalDistricts = true := by
  simp [interactiveLayerIds, mem_ite_nil]

lemma interactive_habitat_suitability_iff (f : LayerFlags) :
    "habitat-suitability" ∈ interactiveLayerIds f ↔ f.showHabitatSuitability = true := by
  simp [interactiveLayerIds, mem_ite_nil]

lemma flags_set_get_frame (f : LayerFlags) (g other : FlagName) (b : Bool)
    (h : other ≠ g) : (f.set g b).get other = f.get other := by
  cases g <;> cases other <;> first | exact absurd rfl h | rfl

/-! ## Theorems -/

/-- C1: the total distance is 0 for fewer than two measurement points
and otherwise the turf length of the line through the points in the
selected unit; the distance display is rendered exactly when the point
list is non-empty and shows the distance with 2 decimal places for
miles and 0 for yards. -/
theorem total_distance_and_display_spec
    (turfLength : List LngLat → MUnit → ℚ) (s : AppState) :
    (s.measurementPoints.length < 2 →
      totalDistance turfLength s.measurementPoints s.measurementUnit = 0) ∧
    (2 ≤ s.measurementPoints.length →
      totalDistance turfLength s.measurementPoints s.measurementUnit =
        turfLength s.measurementPoints s.measurementUnit) ∧
    ((distanceDisplay turfLength s).isSome ↔ s.measurementPoints ≠ []) ∧
    (∀ d deci lbl, distanceDisplay turfLength s = some (d, deci, lbl) →
      d = totalDistance turfLength s.measurementPoints s.measurementUnit ∧
      deci = (if s.measurementUnit = .miles then 2 else 0) ∧
      lbl = (if s.measurementUnit = .miles then "mi" else "yd")) := by
  refine ⟨?_, ?_, ?_, ?_⟩
  · intro h
    simp [totalDistance, h]
  · intro h
    simp [totalDistance, Nat.not_lt.mpr h]
  · constructor
    · intro h
      simp only [distanceDisplay] at h
      split at h
      · rename_i hl
        intro hnil
        simp [hnil] at hl
      · simp at h
    · intro h
      have hl : 0 < s.measurementPoints.length := List.length_pos.mpr h
      simp [distanceDisplay, hl]
  · intro d deci lbl h
    simp only [distanceDisplay] at h
    split at h
    · simp only [Option.some.injEq, Prod.mk.injEq] at h
      obtain ⟨h1, h2, h3⟩ := h
      exact ⟨h1.symm, by simp [← h2, distanceDecimals], by simp [← h3, unitLabel]⟩
    · simp at h

/-- C1 witness: with a concrete turf length and a two-point list the
distance equals the turf length. -/
theorem total_distance_and_display_spec_witness :
    totalDistance (fun _ _ => (5 : ℚ)) [⟨0, 0⟩, ⟨1, 1⟩] .miles = 5 :=
  (total_distance_and_display_spec (fun _ _ => (5 : ℚ))
    { initAppState with measurementPoints := [⟨0, 0⟩, ⟨1, 1⟩] }).2.1 (by decide)

/-- C2: a map click while measuring appends the clicked point as the
last element of the measurement-point list, leaves the earlier vertices
and their order unchanged, and does not touch the popup (the handler
changes nothing but the point list). -/
theorem measuring_click_appends (s : AppState) (ev : ClickEvent)
    (h : s.isMeasuring = true) :
    (onClick s ev).measurementPoints = s.measurementPoints ++ [ev.lngLat] ∧
    ((onClick s ev).measurementPoints.take s.measurementPoints.length =
      s.measurementPoints) ∧
    (onClick s ev).popupInfo = s.popupInfo ∧
    onClick s ev = { s with measurementPoints := s.measurementPoints ++ [ev.lngLat] } := by
  refine ⟨?_, ?_, ?_, ?_⟩ <;> simp [onClick, h]

/-- C2 witness: a concrete measuring click appends its point. -/
theorem measuring_click_appends_witness :
    (onClick { initAppState with isMeasuring := true }
        ⟨[], ⟨3, 4⟩⟩).measurementPoints = [⟨3, 4⟩] :=
  (measuring_click_appends { initAppState with isMeasuring := true }
    ⟨[], ⟨3, 4⟩⟩ rfl).1

/-- C4: the basemap toggle maps the terrain style to the satellite style
and any other style to the terrain style; toggling twice from either of
the two styles restores it, and every toggle lands on one of the two
styles. -/
theorem basemap_toggle_spec :
    toggleStyle STYLE_TERRAIN = STYLE_SATELLITE ∧
    (∀ st : String, st ≠ STYLE_TERRAIN → toggleStyle st = STYLE_TERRAIN) ∧
    toggleStyle (toggleStyle STYLE_TERRAIN) = STYLE_TERRAIN ∧
    toggleStyle (toggleStyle STYLE_SATELLITE) = STYLE_SATELLITE ∧
    (∀ st : String, toggleStyle st = STYLE_TERRAIN ∨ toggleStyle st = STYLE_SATELLITE) := by
  refine ⟨by decide, ?_, by decide, by decide, ?_⟩
  · intro st h
    simp [toggleStyle, h]
  · intro st
    unfold toggleStyle
    split
    · right; rfl
    · left; rfl

/-- C4 witness: toggling from a non-terrain style yields terrain. -/
theorem basemap_toggle_spec_witness :
    toggleStyle "other" = STYLE_TERRAIN :=
  basemap_toggle_spec.2.1 "other" (by decide)

/-- C7: clicking the distance display toggles the unit (miles to yards
and back, an involution on the two-element unit type) and changes
nothing else — in particular the measurement-point list is unchanged. -/
theorem measurement_unit_toggle_spec :
    toggleUnit .miles = .yards ∧
    toggleUnit .yards = .miles ∧
    (∀ u : MUnit, toggleUnit (toggleUnit u) = u) ∧
    (∀ s : AppState,
      (step s .toggleMeasureUnit).measurementPoints = s.measurementPoints ∧
      step s .toggleMeasureUnit =
        { s with measurementUnit := toggleUnit s.measurementUnit }) := by
  refine ⟨rfl, rfl, ?_, ?_⟩
  · intro u
    cases u <;> rfl
  · intro s
    exact ⟨rfl, rfl⟩

/-- C10: the initial state shows exactly hunting districts, NHD,
roads, trails and public lands; parcels, NAIP, bighorn distribution,
elevation bands, slope mask and habitat suitability are hidden; the
NAIP year is 2023, the basemap is terrain, measuring is off with an
empty point list, the unit is miles and no popup is open. -/
theorem initial_state_spec :
    initAppState.flags.showLocalDistricts = true ∧
    initAppState.flags.showNHD = true ∧
    initAppState.flags.showMTRoads = true ∧
    initAppState.flags.showTrails = true ∧
    initAppState.flags.showPublicLands = true ∧
    initAppState.flags.showParcels = false ∧
    initAppState.flags.showNAIP = false ∧
    initAppState.flags.showBHS = false ∧
    initAppState.flags.showElevationBands = false ∧
    initAppState.flags.showSlopeMask = false ∧
    initAppState.flags.showHabitatSuitability = false ∧
    initAppState.naipYear = "2023" ∧
    initAppState.mapStyle = STYLE_TERRAIN ∧
    initAppState.isMeasuring = false ∧
    initAppState.measurementPoints = [] ∧
    initAppState.measurementUnit = MUnit.miles ∧
    initAppState.popupInfo = none :=
  ⟨rfl, rfl, rfl, rfl, rfl, rfl, rfl, rfl, rfl, rfl, rfl, rfl, rfl, rfl, rfl,
   rfl, rfl⟩

/-- C3: a map click while not measuring opens the popup on the first
hit feature at the click coordinates with one table row per property
entry (setting the selected trail name to the feature's Name when the
hit layer is the trails hit layer), and clears popup and trail
selection when no feature was hit. -/
theorem nonmeasuring_click_spec (s : AppState) (ev : ClickEvent)
    (h : s.isMeasuring = false) :
    (∀ f rest, ev.features = f :: rest →
      (onClick s ev).popupInfo = some ⟨f, ev.lngLat⟩ ∧
      popupRows ⟨f, ev.lngLat⟩ = f.properties ∧
      (popupRows ⟨f, ev.lngLat⟩).length = f.properties.length ∧
      (∀ nm, f.layerId = "fs-trails-hit" →
        f.properties.lookup "Name" = some nm → nm ≠ "" →
        (onClick s ev).selectedTrailName = some nm) ∧
      (f.layerId ≠ "fs-trails-hit" →
        (onClick s ev).selectedTrailName = s.selectedTrailName)) ∧
    (ev.features = [] →
      (onClick s ev).popupInfo = none ∧
      (onClick s ev).selectedTrailName = none) := by
  constructor
  · intro f rest hf
    have hhead : ev.features.head? = some f := by simp [hf]
    by_cases hl : f.layerId = "fs-trails-hit"
    · refine ⟨?_, rfl, rfl, ?_, ?_⟩
      · simp [onClick, h, hhead, hl]
      · intro nm _ hnm hne
        simp [onClick, h, hhead, hl, falsyToNull, hnm, hne]
      · intro hne
        exact absurd hl hne
    · refine ⟨?_, rfl, rfl, ?_, ?_⟩
      · simp [onClick, h, hhead, hl]
      · intro nm hl2 _ _
        exact absurd hl2 hl
      · intro _
        simp [onClick, h, hhead, hl]
  · intro hf
    have hhead : ev.features.head? = none := by simp [hf]
    constructor <;> simp [onClick, h, hhead]

/-- C3 witness: a concrete non-measuring click on a trails hit feature
selects that trail's name. -/
theorem nonmeasuring_click_spec_witness :
    (onClick initAppState
        ⟨[⟨"fs-trails-hit", [("Name", "Ridge Trail")]⟩], ⟨1, 2⟩⟩).selectedTrailName =
      some "Ridge Trail" :=
  (((nonmeasuring_click_spec initAppState
        ⟨[⟨"fs-trails-hit", [("Name", "Ridge Trail")]⟩], ⟨1, 2⟩⟩ rfl).1
      ⟨"fs-trails-hit", [("Name", "Ridge Trail")]⟩ [] rfl).2.2.2.1
    "Ridge Trail" rfl (by decide) (by decide))

/-- C6: the sidebar offers exactly the eleven fixed layer toggles, each
visibility flag has a toggle, and the NAIP year select offers exactly
the nine fixed years. -/
theorem sidebar_configuration_spec :
    sidebarToggles.map Prod.fst =
      ["Hunting Districts", "Public Lands", "MT Parcels", "MT Highway/Roads",
       "Forest Service Trails", "NHD Hydrography", "Bighorn Sheep Distribution",
       "Elevation Bands", "Steep Slope (>45°)", "Habitat Suitability Index",
       "NAIP Imagery"] ∧
    (∀ n : FlagName, n ∈ sidebarToggles.map Prod.snd) ∧
    (sidebarToggles.map Prod.snd).Nodup ∧
    sidebarToggles.length = 11 ∧
    naipYearOptions =
      ["2023", "2021", "2019", "2017", "2015", "2013", "2011", "2009", "2005"] := by
  refine ⟨rfl, by decide, by decide, rfl, rfl⟩

/-- C8: while measuring no popup is open: the initial state satisfies
the invariant, entering measurement mode clears the popup, clicks
handled while measuring leave the popup untouched, and every action
preserves the invariant. -/
theorem measuring_popup_invariant_spec :
    popupInvariant initAppState ∧
    (∀ s : AppState, s.isMeasuring = false →
      (step s .toggleMeasure).isMeasuring = true ∧
      (step s .toggleMeasure).popupInfo = none) ∧
    (∀ (s : AppState) (ev : ClickEvent), s.isMeasuring = true →
      (onClick s ev).popupInfo = s.popupInfo) ∧
    (∀ (s : AppState) (a : Action),
      popupInvariant s → popupInvariant (step s a)) := by
  refine ⟨fun _ => rfl, ?_, ?_, ?_⟩
  · intro s h
    simp [step, h]
  · intro s ev h
    simp [onClick_measuring s ev h]
  · intro s a hinv
    cases a with
    | mapClick ev =>
        cases h : s.isMeasuring with
        | true =>
            intro _
            rw [show step s (.mapClick ev) = onClick s ev from rfl,
                onClick_measuring s ev h]
            exact hinv h
        | false =>
            intro hm
            rw [show step s (.mapClick ev) = onClick s ev from rfl,
                onClick_isMeasuring] at hm
            exact absurd (h ▸ hm) (by simp)
    | toggleMeasure =>
        cases h : s.isMeasuring <;> simp [popupInvariant, step, h]
    | mouseMove c => exact hinv
    | clearMeasurements => exact hinv
    | toggleMeasureUnit => exact hinv
    | closePopup => exact fun _ => rfl
    | toggleBasemap => exact hinv
    | setFlag n v => exact hinv
    | setNaipYear y => exact hinv
    | setSidebarOpen b => exact hinv
    | styleLoaded => exact hinv
    | suitabilityMetaLoaded m => exact hinv

/-- C8 witness: the invariant holds after entering measurement mode
from the initial state. -/
theorem measuring_popup_invariant_spec_witness :
    popupInvariant (step initAppState Action.toggleMeasure) :=
  measuring_popup_invariant_spec.2.2.2 initAppState .toggleMeasure (fun _ => rfl)

/-- C9: the Clear action empties the measurement-point list and changes
nothing else (unit, measuring flag, popup, basemap, layer flags all
unchanged); leaving measurement mode keeps the accumulated points, and
no action other than Clear can empty a non-empty point list. -/
theorem clear_measurements_spec (s : AppState) :
    step s .clearMeasurements = { s with measurementPoints := [] } ∧
    (step s .clearMeasurements).measurementUnit = s.measurementUnit ∧
    (step s .clearMeasurements).isMeasuring = s.isMeasuring ∧
    (step s .clearMeasurements).popupInfo = s.popupInfo ∧
    (step s .clearMeasurements).mapStyle = s.mapStyle ∧
    (step s .clearMeasurements).flags = s.flags ∧
    (step s .toggleMeasure).measurementPoints = s.measurementPoints ∧
    (∀ a : Action, a ≠ .clearMeasurements → s.measurementPoints ≠ [] →
      (step s a).measurementPoints ≠ []) := by
  refine ⟨rfl, rfl, rfl, rfl, rfl, rfl, ?_, ?_⟩
  · cases h : s.isMeasuring <;> simp [step, h]
  · intro a ha hne
    cases a with
    | mapClick ev =>
        cases h : s.isMeasuring with
        | true =>
            rw [show step s (.mapClick ev) = onClick s ev from rfl,
                onClick_measuring s ev h]
            simp
        | false =>
            rw [show step s (.mapClick ev) = onClick s ev from rfl,
                onClick_points_of_not_measuring s ev h]
            exact hne
    | clearMeasurements => exact absurd rfl ha
    | mouseMove c => exact hne
    | toggleMeasure =>
        cases h : s.isMeasuring <;> simpa [step, h] using hne
    | toggleMeasureUnit => exact hne
    | closePopup => exact hne
    | toggleBasemap => exact hne
    | setFlag n v => exact hne
    | setNaipYear y => exact hne
    | setSidebarOpen b => exact hne
    | styleLoaded => exact hne
    | suitabilityMetaLoaded m => exact hne

/-- C9 witness: exiting measurement mode keeps a concrete non-empty
point list non-empty. -/
theorem clear_measurements_spec_witness :
    (step { initAppState with
              measurementPoints := [⟨0, 0⟩], isMeasuring := true }
        Action.toggleMeasure).measurementPoints ≠ [] :=
  (clear_measurements_spec
      { initAppState with measurementPoints := [⟨0, 0⟩], isMeasuring := true }).2.2.2.2.2.2.2
    .toggleMeasure (by decide) (by decide)

/-- C5 counterexample: with the habitat-suitability flag set and the
basemap style loaded but the suitability metadata not yet fetched, the
habitat-suitability source is not rendered, refuting "rendered iff the
flag is true and the style has loaded". -/
theorem layer_visibility_claim_counterexample :
    habitatNoMetaState.flags.showHabitatSuitability = true ∧
    habitatNoMetaState.isStyleLoaded = true ∧
    ¬ sourceRendered habitatNoMetaState "habitat-suitability" := by
  refine ⟨rfl, rfl, ?_⟩
  decide

/-- C5 (amended): each overlay's source (with its sublayer stack) is
rendered iff its flag is set and the basemap style has loaded — except
habitat suitability, which additionally requires its fetched metadata;
each layer's clickable ids are in `interactiveLayerIds` iff its flag is
set (two ids for NHD, only the labels id for parcels); toggling one
flag changes no other flag and no other layer's rendered or interactive
status. -/
theorem layer_visibility_amended_spec (s : AppState) :
    ((sourceRendered s "hunting-district" ↔
        s.isStyleLoaded = true ∧ s.flags.showLocalDistricts = true) ∧
     (sourceRendered s "public-lands" ↔
        s.isStyleLoaded = true ∧ s.flags.showPublicLands = true) ∧
     (sourceRendered s "parcels" ↔
        s.isStyleLoaded = true ∧ s.flags.showParcels = true) ∧
     (sourceRendered s "mt-roads" ↔
        s.isStyleLoaded = true ∧ s.flags.showMTRoads = true) ∧
     (sourceRendered s "fs-trails" ↔
        s.isStyleLoaded = true ∧ s.flags.showTrails = true) ∧
     (sourceRendered s "nhd-waterbodies" ↔
        s.isStyleLoaded = true ∧ s.flags.showNHD = true) ∧
     (sourceRendered s "nhd-flowlines" ↔
        s.isStyleLoaded = true ∧ s.flags.showNHD = true) ∧
     (sourceRendered s "bhs-distribution" ↔
        s.isStyleLoaded = true ∧ s.flags.showBHS = true) ∧
     (sourceRendered s "elevation-bands" ↔
        s.isStyleLoaded = true ∧ s.flags.showElevationBands = true) ∧
     (sourceRendered s "slope-mask" ↔
        s.isStyleLoaded = true ∧ s.flags.showSlopeMask = true) ∧
     (sourceRendered s ("naip-" ++ s.naipYear) ↔
        s.isStyleLoaded = true ∧ s.flags.showNAIP = true) ∧
     (sourceRendered s "habitat-suitability" ↔
        s.isStyleLoaded = true ∧ s.flags.showHabitatSuitability = true ∧
          s.suitabilityMeta.isSome = true)) ∧
    (("hunting-district-hit" ∈ interactiveLayerIds s.flags ↔
        s.flags.showLocalDistricts = true) ∧
     ("public-lands" ∈ interactiveLayerIds s.flags ↔
        s.flags.showPublicLands = true) ∧
     ("parcels-labels" ∈ interactiveLayerIds s.flags ↔
        s.flags.showParcels = true) ∧
     ("parcels" ∉ interactiveLayerIds s.flags) ∧
     ("mt-roads-hit" ∈ interactiveLayerIds s.flags ↔
        s.flags.showMTRoads = true) ∧
     ("fs-trails-hit" ∈ interactiveLayerIds s.flags ↔
        s.flags.showTrails = true) ∧
     ("nhd-waterbody-fill" ∈ interactiveLayerIds s.flags ↔
        s.flags.showNHD = true) ∧
     ("nhd-flowline-hit" ∈ interactiveLayerIds s.flags ↔
        s.flags.showNHD = true) ∧
     ("bhs-distribution" ∈ interactiveLayerIds s.flags ↔
        s.flags.showBHS = true) ∧
     ("elevation-bands" ∈ interactiveLayerIds s.flags ↔
        s.flags.showElevationBands = true) ∧
     ("slope-mask" ∈ interactiveLayerIds s.flags ↔
        s.flags.showSlopeMask = true) ∧
     ("habitat-suitability" ∈ interactiveLayerIds s.flags ↔
        s.flags.showHabitatSuitability = true)) ∧
    (∀ (g other : FlagName) (b : Bool), other ≠ g →
      (step s (.setFlag g b)).flags.get other = s.flags.get other) ∧
    (∀ (g other : FlagName) (b : Bool), other ≠ g →
      (∀ id ∈ flagSourceIds s other,
        (sourceRendered (step s (.setFlag g b)) id ↔ sourceRendered s id)) ∧
      (∀ id ∈ flagInteractiveIds other,
        (id ∈ interactiveLayerIds (step s (.setFlag g b)).flags ↔
          id ∈ interactiveLayerIds s.flags))) := by
  refine ⟨⟨rendered_hunting_district_iff s, rendered_public_lands_iff s,
           rendered_parcels_iff s, rendered_mt_roads_iff s,
           rendered_fs_trails_iff s, rendered_nhd_waterbodies_iff s,
           rendered_nhd_flowlines_iff s, rendered_bhs_iff s,
           rendered_elevation_bands_iff s, rendered_slope_mask_iff s,
           (rendered_naip_iff s s.naipYear).trans (by simp),
           rendered_habitat_suitability_iff s⟩,
          ⟨interactive_hunting_district_iff s.flags,
           interactive_public_lands_iff s.flags,
           interactive_parcels_labels_iff s.flags,
           interactive_parcels_fill_not_mem s.flags,
           interactive_mt_roads_iff s.flags,
           interactive_fs_trails_iff s.flags,
           interactive_nhd_waterbody_iff s.flags,
           interactive_nhd_flowline_iff s.flags,
           interactive_bhs_iff s.flags,
           interactive_elevation_bands_iff s.flags,
           interactive_slope_mask_iff s.flags,
           interactive_habitat_suitability_iff s.flags⟩,
          ?_, ?_⟩
  · intro g other b hne
    exact flags_set_get_frame s.flags g other b hne
  · intro g other b hne
    have hget := flags_set_get_frame s.flags g other b hne
    constructor
    · intro id hid
      cases other with
      | localDistricts =>
          simp only [flagSourceIds, List.mem_singleton] at hid
          subst hid
          simp only [step, rendered_hunting_district_iff]
          rw [show (s.flags.set g b).showLocalDistricts = s.flags.showLocalDistricts from hget]
      | nhd =>
          simp only [flagSourceIds, List.mem_cons, List.mem_singleton,
                     List.not_mem_nil, or_false] at hid
          rcases hid with rfl | rfl
          · simp only [step, rendered_nhd_waterbodies_iff]
            rw [show (s.flags.set g b).showNHD = s.flags.showNHD from hget]
          · simp only [step, rendered_nhd_flowlines_iff]
            rw [show (s.flags.set g b).showNHD = s.flags.showNHD from hget]
      | mtRoads =>
          simp only [flagSourceIds, List.mem_singleton] at hid
          subst hid
          simp only [step, rendered_mt_roads_iff]
          rw [show (s.flags.set g b).showMTRoads = s.flags.showMTRoads from hget]
      | trails =>
          simp only [flagSourceIds, List.mem_singleton] at hid
          subst hid
          simp only [step, rendered_fs_trails_iff]
          rw [show (s.flags.set g b).showTrails = s.flags.showTrails from hget]
      | publicLands =>
          simp only [flagSourceIds, List.mem_singleton] at hid
          subst hid
          simp only [step, rendered_public_lands_iff]
          rw [show (s.flags.set g b).showPublicLands = s.flags.showPublicLands from hget]
      | naip =>
          simp only [flagSourceIds, List.mem_singleton] at hid
          subst hid
          simp only [step, rendered_naip_iff]
          rw [show (s.flags.set g b).showNAIP = s.flags.showNAIP from hget]
      | bhs =>
          simp only [flagSourceIds, List.mem_singleton] at hid
          subst hid
          simp only [step, rendered_bhs_iff]
          rw [show (s.flags.set g b).showBHS = s.flags.showBHS from hget]
      | elevationBands =>
          simp only [flagSourceIds, List.mem_singleton] at hid
          subst hid
          simp only [step, rendered_elevation_bands_iff]
          rw [show (s.flags.set g b).showElevationBands = s.flags.showElevationBands from hget]
      | slopeMask =>
          simp only [flagSourceIds, List.mem_singleton] at hid
          subst hid
          simp only [step, rendered_slope_mask_iff]
          rw [show (s.flags.set g b).showSlopeMask = s.flags.showSlopeMask from hget]
      | parcels =>
          simp only [flagSourceIds, List.mem_singleton] at hid
          subst hid
          simp only [step, rendered_parcels_iff]
          rw [show (s.flags.set g b).showParcels = s.flags.showParcels from hget]
      | habitatSuitability =>
          simp only [flagSourceIds, List.mem_singleton] at hid
          subst hid
          simp only [step, rendered_habitat_suitability_iff]
          rw [show (s.flags.set g b).showHabitatSuitability = s.flags.showHabitatSuitability from hget]
    · intro id hid
      cases other with
      | localDistricts =>
          simp only [flagInteractiveIds, List.mem_singleton] at hid
          subst hid
          simp only [step, interactive_hunting_district_iff]
          rw [show (s.flags.set g b).showLocalDistricts = s.flags.showLocalDistricts from hget]
      | nhd =>
          simp only [flagInteractiveIds, List.mem_cons, List.mem_singleton,
                     List.not_mem_nil, or_false] at hid
          rcases hid with rfl | rfl
          · simp only [step, interactive_nhd_waterbody_iff]
            rw [show (s.flags.set g b).showNHD = s.flags.showNHD from hget]
          · simp only [step, interactive_nhd_flowline_iff]
            rw [show (s.flags.set g b).showNHD = s.flags.showNHD from hget]
      | mtRoads =>
          simp only [flagInteractiveIds, List.mem_singleton] at hid
          subst hid
          simp only [step, interactive_mt_roads_iff]
          rw [show (s.flags.set g b).showMTRoads = s.flags.showMTRoads from hget]
      | trails =>
          simp only [flagInteractiveIds, List.mem_singleton] at hid
          subst hid
          simp only [step, interactive_fs_trails_iff]
          rw [show (s.flags.set g b).showTrails = s.flags.showTrails from hget]
      | publicLands =>
          simp only [flagInteractiveIds, List.mem_singleton] at hid
          subst hid
          simp only [step, interactive_public_lands_iff]
          rw [show (s.flags.set g b).showPublicLands = s.flags.showPublicLands from hget]
      | naip => simp [flagInteractiveIds] at hid
      | bhs =>
          simp only [flagInteractiveIds, List.mem_singleton] at hid
          subst hid
          simp only [step, interactive_bhs_iff]
          rw [show (s.flags.set g b).showBHS = s.flags.showBHS from hget]
      | elevationBands =>
          simp only [flagInteractiveIds, List.mem_singleton] at hid
          subst hid
          simp only [step, interactive_elevation_bands_iff]
          rw [show (s.flags.set g b).showElevationBands = s.flags.showElevationBands from hget]
      | slopeMask =>
          simp only [flagInteractiveIds, List.mem_singleton] at hid
          subst hid
          simp only [step, interactive_slope_mask_iff]
          rw [show (s.flags.set g b).showSlopeMask = s.flags.showSlopeMask from hget]
      | parcels =>
          simp only [flagInteractiveIds, List.mem_singleton] at hid
          subst hid
          simp only [step, interactive_parcels_labels_iff]
          rw [show (s.flags.set g b).showParcels = s.flags.showParcels from hget]
      | habitatSuitability =>
          simp only [flagInteractiveIds, List.mem_singleton] at hid
          subst hid
          simp only [step, interactive_habitat_suitability_iff]
          rw [show (s.flags.set g b).showHabitatSuitability = s.flags.showHabitatSuitability from hget]

/-- C5 witness: enabling parcels leaves the public-lands source's
rendering unchanged in the initial state. -/
theorem layer_visibility_amended_spec_witness :
    sourceRendered (step initAppState (.setFlag .parcels true)) "public-lands" ↔
      sourceRendered initAppState "public-lands" :=
  ((layer_visibility_amended_spec initAppState).2.2.2 .parcels .publicLands true
      (by decide)).1 "public-lands" (by decide)

end HuntProject
